import Mathlib

/-!
# Verification of the Eldrin Vue adapter (`@eldrin-project/eldrin-app-vue`)

A shallow embedding of the package's migration-aware bootstrap sequencing
core (`src/createApp.ts`), its lifecycle composition helpers
(`combineLifecycles`, `runLifecycleFn`), and the accessor composables
(`src/composables.ts`).

Modelling conventions:
* The opaque D1 database handle is a wrapper around a `Nat` identifier.
* JavaScript `undefined`/`null` optionality is `Option`.
* The external migration runner (`runMigrations` from
  `@eldrin-project/eldrin-app-core`) is a collaborator: a single bootstrap
  call observes it either resolving with a `MigrationResult` or raising a
  thrown value.  Its behaviour is passed to `bootstrap` as a parameter.
* Caller-supplied callbacks (`onMigrationsComplete`, `onMigrationError`)
  return `void`; we record their presence as booleans and log every actual
  invocation, together with its argument, in the bootstrap output.
* `console.warn` / `console.error` lines are logged as strings.
* `async`/`await` in the single-threaded cooperative model is plain
  sequential composition; a total Lean function cannot throw, which mirrors
  the source's policy that nothing escapes `bootstrap` as a rejection.
-/

/-- Opaque Cloudflare D1 database handle (`D1Database`). -/
structure D1Database where
  id : Nat
deriving DecidableEq, Repr

/-- A migration file: `{ name: string, content: string }`
(re-exported from `@eldrin-project/eldrin-app-core`). -/
structure MigrationFile where
  name : String
  content : String
deriving DecidableEq, Repr

/-- Error descriptor inside a `MigrationResult`: `{ message: string }`. -/
structure ErrorDescriptor where
  message : String
deriving DecidableEq, Repr

/-- `MigrationResult = { success: boolean, executed: number, error?: { message: string } }`. -/
structure MigrationResult where
  success : Bool
  executed : Nat
  error : Option ErrorDescriptor
deriving DecidableEq, Repr

/-- A JavaScript `Error` object, reduced to its message. -/
structure JsError where
  message : String
deriving DecidableEq, Repr

/-- A value thrown by the migration runner: either already an `Error`
instance, or some other value carried by its string conversion
(`String(error)`). -/
inductive ThrownValue where
  | errorVal (e : JsError)
  | otherVal (s : String)
deriving DecidableEq, Repr

/-- `error instanceof Error ? error : new Error(String(error))`
(src/createApp.ts line 98). -/
def normalizeThrown : ThrownValue → JsError
  | .errorVal e => e
  | .otherVal s => { message := s }

/-- One observed behaviour of the external migration runner for a single
`await runMigrations(db, { migrations })` call: it either resolves with a
result or raises. -/
inductive RunnerOutcome where
  | resolves (result : MigrationResult)
  | raises (thrown : ThrownValue)
deriving DecidableEq, Repr

/-- Internal app state (`AppState` in src/types.ts); persists across
mount/unmount cycles.  The `vueApp` field holds an opaque renderer
handle. -/
structure AppState where
  db : Option D1Database
  migrationsComplete : Bool
  migrationResult : Option MigrationResult
  vueApp : Option Unit
deriving DecidableEq, Repr

/-- Reactive database context for composables (`DatabaseContext` in
src/types.ts). -/
structure DatabaseContext where
  db : Option D1Database
  migrationsComplete : Bool
  migrationResult : Option MigrationResult
deriving DecidableEq, Repr

/-- The `state` record as initialised inside `createApp`
(src/createApp.ts lines 48-53). -/
def initialAppState : AppState :=
  { db := none, migrationsComplete := false, migrationResult := none, vueApp := none }

/-- The `databaseContext` record as initialised inside `createApp`
(src/createApp.ts lines 56-60). -/
def initialDatabaseContext : DatabaseContext :=
  { db := none, migrationsComplete := false, migrationResult := none }

/-- The part of `CreateAppOptions` that the bootstrap sequencer reads:
the app name, the migration list (defaulting to `[]`), and whether the
two optional callbacks were supplied.  (`root` and `configureApp` only
affect the UI bridge, which is outside the sequencing core.) -/
structure CreateAppOptions where
  name : String
  migrations : List MigrationFile
  hasOnMigrationsComplete : Bool
  hasOnMigrationError : Bool
deriving DecidableEq, Repr

/-- Lifecycle props passed by single-spa (`LifecycleProps` in
src/types.ts).  `singleSpa`, `mountParcel` and the manifest are opaque to
the bootstrap sequencer, which reads only `db`. -/
structure LifecycleProps where
  name : String
  singleSpa : Unit
  mountParcel : Unit
  db : Option D1Database
  manifestBaseUrl : Option String
deriving DecidableEq, Repr

/-- Everything a single `bootstrap(props)` call produces: the updated
`state` and `databaseContext` records, the arguments of every actual
`onMigrationsComplete` / `onMigrationError` invocation (in order), the
`console.warn` / `console.error` lines, and how many times the external
migration runner was invoked. -/
structure BootstrapOutput where
  state : AppState
  databaseContext : DatabaseContext
  completeCalls : List MigrationResult
  errorCalls : List JsError
  warnings : List String
  consoleErrors : List String
  runnerCalls : Nat
deriving DecidableEq, Repr

/-- The bootstrap sequencer (src/createApp.ts lines 66-104), embedded as a
pure state transformer.  `runner` is the behaviour the external
`runMigrations` collaborator exhibits if (and only if) it is invoked. -/
def bootstrap (opts : CreateAppOptions) (state : AppState)
    (databaseContext : DatabaseContext) (props : LifecycleProps)
    (runner : RunnerOutcome) : BootstrapOutput :=
  match props.db with
  | none =>
      -- console.warn(`[${name}] No database provided in lifecycle props`)
      { state := { state with migrationsComplete := true }
        databaseContext := { databaseContext with migrationsComplete := true }
        completeCalls := []
        errorCalls := []
        warnings := ["[" ++ opts.name ++ "] No database provided in lifecycle props"]
        consoleErrors := []
        runnerCalls := 0 }
  | some db =>
      let state := { state with db := some db }
      let databaseContext := { databaseContext with db := some db }
      if opts.migrations.length > 0 then
        match runner with
        | .resolves result =>
            let state :=
              { state with migrationResult := some result,
                           migrationsComplete := result.success }
            let databaseContext :=
              { databaseContext with migrationResult := some result,
                                     migrationsComplete := result.success }
            if result.success then
              { state := state
                databaseContext := databaseContext
                completeCalls := if opts.hasOnMigrationsComplete then [result] else []
                errorCalls := []
                warnings := []
                consoleErrors := []
                runnerCalls := 1 }
            else
              match result.error with
              | some errDesc =>
                  { state := state
                    databaseContext := databaseContext
                    completeCalls := []
                    errorCalls :=
                      if opts.hasOnMigrationError then [{ message := errDesc.message }] else []
                    warnings := []
                    consoleErrors := []
                    runnerCalls := 1 }
              | none =>
                  { state := state
                    databaseContext := databaseContext
                    completeCalls := []
                    errorCalls := []
                    warnings := []
                    consoleErrors := []
                    runnerCalls := 1 }
        | .raises thrown =>
            -- console.error(`[${name}] Migration failed:`, error)
            { state := { state with migrationsComplete := false }
              databaseContext := { databaseContext with migrationsComplete := false }
              completeCalls := []
              errorCalls :=
                if opts.hasOnMigrationError then [normalizeThrown thrown] else []
              warnings := []
              consoleErrors := ["[" ++ opts.name ++ "] Migration failed:"]
              runnerCalls := 1 }
      else
        { state := { state with migrationsComplete := true }
          databaseContext := { databaseContext with migrationsComplete := true }
          completeCalls := []
          errorCalls := []
          warnings := []
          consoleErrors := []
          runnerCalls := 0 }

/-! ## Accessor composables (src/composables.ts)

`inject(DatabaseContextKey)` is modelled by passing the injected context
(or `none` when no Context Store is reachable from the call site) as a
parameter.  Each accessor returns its value paired with the list of
`console.warn` lines it emits; accessors take the store by value and
produce no updated store, so they cannot mutate it. -/

/-- `useDatabase()` (src/composables.ts lines 17-24): current `db` or
`null`, warning when called outside the Eldrin app context. -/
def useDatabase (injected : Option DatabaseContext) :
    Option D1Database × List String :=
  match injected with
  | none => (none, ["useDatabase() called outside of Eldrin app context"])
  | some context => (context.db, [])

/-- `useDatabaseContext()` (src/composables.ts lines 30-40): the full
context record, or an all-default record plus a warning when
unreachable. -/
def useDatabaseContext (injected : Option DatabaseContext) :
    DatabaseContext × List String :=
  match injected with
  | none =>
      ({ db := none, migrationsComplete := false, migrationResult := none },
       ["useDatabaseContext() called outside of Eldrin app context"])
  | some context => (context, [])

/-- `useMigrationsComplete()` (src/composables.ts lines 47-50):
`context?.migrationsComplete ?? false`, silent fallback. -/
def useMigrationsComplete (injected : Option DatabaseContext) :
    Bool × List String :=
  match injected with
  | none => (false, [])
  | some context => (context.migrationsComplete, [])

/-- Shell-provided global Eldrin context (`EldrinGlobal` in src/types.ts).
The optional `getAuthHeaders` capability is a thunk returning a header
mapping, modelled as an association list. -/
structure EldrinUser where
  id : String
  email : String
  name : Option String

/-- The `window.__ELDRIN__` global. -/
structure EldrinGlobal where
  getAuthHeaders : Option (Unit → List (String × String))
  user : Option EldrinUser

/-- `getEldrinGlobal()` (src/composables.ts lines 59-62):
`win.__ELDRIN__ ?? null`.  The process-wide `window` global slot is the
parameter. -/
def getEldrinGlobal (eldrinSlot : Option EldrinGlobal) : Option EldrinGlobal :=
  eldrinSlot

/-- `useEldrinGlobal()` (src/composables.ts lines 68-70). -/
def useEldrinGlobal (eldrinSlot : Option EldrinGlobal) : Option EldrinGlobal :=
  getEldrinGlobal eldrinSlot

/-- `useAuthHeaders()` (src/composables.ts lines 76-79):
`eldrin?.getAuthHeaders?.() ?? {}`. -/
def useAuthHeaders (eldrinSlot : Option EldrinGlobal) : List (String × String) :=
  match useEldrinGlobal eldrinSlot with
  | none => []
  | some eldrin =>
      match eldrin.getAuthHeaders with
      | none => []
      | some headersFn => headersFn ()

/-! ## Lifecycle composition (src/createApp.ts lines 139-205)

A single-spa lifecycle function is an asynchronous `props`-consuming
effect; in the single-threaded cooperative model it is a state
transformer `T → W → W` over an arbitrary world `W`, and `await f; await g`
is composition.  A lifecycle phase may be a single function or an ordered
array of functions, exactly the shape `runLifecycleFn` accepts. -/

/-- `LifecycleFn<T> | LifecycleFn<T>[]`: one lifecycle phase. -/
inductive LifecyclePhase (T W : Type) where
  | single (f : T → W → W)
  | arr (fs : List (T → W → W))

/-- A three-phase single-spa lifecycle object (`AppLifecycle<T>`). -/
structure AppLifecycle (T W : Type) where
  bootstrap : LifecyclePhase T W
  mount : LifecyclePhase T W
  unmount : LifecyclePhase T W

/-- `runLifecycleFn` (src/createApp.ts lines 139-150): run a single
function, or each function of an array in order, each awaited before the
next starts. -/
def runLifecycleFn {T W : Type} : LifecyclePhase T W → T → W → W
  | .single f, props, w => f props w
  | .arr fs, props, w => fs.foldl (fun acc f => f props acc) w

/-- `combineLifecycles` (src/createApp.ts lines 185-205): merged
bootstrap awaits the Eldrin lifecycle's bootstrap, then the Vue
lifecycle's; merged mount/unmount delegate to the Vue lifecycle only. -/
def combineLifecycles {T W : Type} (eldrinLifecycle vueLifecycle : AppLifecycle T W) :
    AppLifecycle T W :=
  { bootstrap := .single (fun props w =>
      runLifecycleFn vueLifecycle.bootstrap props
        (runLifecycleFn eldrinLifecycle.bootstrap props w))
    mount := .single (fun props w => runLifecycleFn vueLifecycle.mount props w)
    unmount := .single (fun props w => runLifecycleFn vueLifecycle.unmount props w) }

/-! ## The AppState/DatabaseContext synchronisation invariant -/

/-- The two records agree on their three shared fields. -/
def agrees (s : AppState) (c : DatabaseContext) : Prop :=
  s.db = c.db ∧ s.migrationsComplete = c.migrationsComplete ∧
    s.migrationResult = c.migrationResult

instance (s : AppState) (c : DatabaseContext) : Decidable (agrees s c) := by
  unfold agrees; infer_instance

/-- `state` as it stands at the single suspension point of `bootstrap`
(the `await runMigrations(db, { migrations })` call): lines 76-77 have
already stored the handle, nothing else has changed. -/
def stateAtAwait (s : AppState) (db : D1Database) : AppState :=
  { s with db := some db }

/-- `databaseContext` at the same suspension point (line 78). -/
def databaseContextAtAwait (c : DatabaseContext) (db : D1Database) : DatabaseContext :=
  { c with db := some db }

/-! ## Theorems -/

/-- Helper: with a database handle in the props and a non-empty migration
list, a `bootstrap` call invokes the external runner exactly once,
whatever the runner does. -/
theorem bootstrap_runnerCalls_one (opts : CreateAppOptions) (s : AppState)
    (c : DatabaseContext) (props : LifecycleProps) (db : D1Database)
    (runner : RunnerOutcome) (hdb : props.db = some db)
    (hm : opts.migrations ≠ []) :
    (bootstrap opts s c props runner).runnerCalls = 1 := by
  have hlen : 0 < opts.migrations.length := List.length_pos.mpr hm
  cases runner with
  | resolves result =>
      rcases result with ⟨success, executed, error⟩
      cases success <;> cases error <;> simp [bootstrap, hdb, hlen]
  | raises thrown => simp [bootstrap, hdb, hlen]

/-- C1: with a database handle and a non-empty migration list, when the
runner resolves with `{success: true, executed: N}`, bootstrap leaves
`migrationsComplete = true` and stores the result (so its `executed`
field is `N`) in both records; `onMigrationsComplete`, when supplied, is
invoked exactly once with that exact result, and `onMigrationError` is
not invoked. -/
theorem bootstrap_migrations_success
    (opts : CreateAppOptions) (s : AppState) (c : DatabaseContext)
    (props : LifecycleProps) (db : D1Database) (N : Nat)
    (err : Option ErrorDescriptor)
    (hdb : props.db = some db) (hm : opts.migrations ≠ []) :
    (bootstrap opts s c props (.resolves ⟨true, N, err⟩)).state.migrationsComplete = true ∧
    (bootstrap opts s c props (.resolves ⟨true, N, err⟩)).databaseContext.migrationsComplete = true ∧
    (bootstrap opts s c props (.resolves ⟨true, N, err⟩)).state.migrationResult =
      some ⟨true, N, err⟩ ∧
    (bootstrap opts s c props (.resolves ⟨true, N, err⟩)).databaseContext.migrationResult =
      some ⟨true, N, err⟩ ∧
    ((bootstrap opts s c props (.resolves ⟨true, N, err⟩)).state.migrationResult.map
      MigrationResult.executed = some N) ∧
    (opts.hasOnMigrationsComplete = true →
      (bootstrap opts s c props (.resolves ⟨true, N, err⟩)).completeCalls = [⟨true, N, err⟩]) ∧
    (opts.hasOnMigrationsComplete = false →
      (bootstrap opts s c props (.resolves ⟨true, N, err⟩)).completeCalls = []) ∧
    (bootstrap opts s c props (.resolves ⟨true, N, err⟩)).errorCalls = [] := by
  have hlen : 0 < opts.migrations.length := List.length_pos.mpr hm
  cases hcb : opts.hasOnMigrationsComplete <;>
    simp [bootstrap, hdb, hlen, hcb]

/-- C1 witness: a concrete successful run with two executed migrations. -/
theorem bootstrap_migrations_success_witness :
    (bootstrap ⟨"my-vue-app", [⟨"0001_init.sql", "CREATE TABLE items;"⟩], true, true⟩
        initialAppState initialDatabaseContext
        ⟨"my-vue-app", (), (), some ⟨1⟩, none⟩
        (.resolves ⟨true, 2, none⟩)).state.migrationsComplete = true ∧
    (bootstrap ⟨"my-vue-app", [⟨"0001_init.sql", "CREATE TABLE items;"⟩], true, true⟩
        initialAppState initialDatabaseContext
        ⟨"my-vue-app", (), (), some ⟨1⟩, none⟩
        (.resolves ⟨true, 2, none⟩)).completeCalls = [⟨true, 2, none⟩] :=
  ⟨(bootstrap_migrations_success _ _ _ _ ⟨1⟩ 2 none rfl
      (List.cons_ne_nil _ _)).1,
   (bootstrap_migrations_success _ _ _ _ ⟨1⟩ 2 none rfl
      (List.cons_ne_nil _ _)).2.2.2.2.2.1 rfl⟩

/-- C2: with a database handle and a non-empty migration list, when the
runner resolves with `{success: false, error: {message: M}}`, bootstrap
leaves `migrationsComplete = false`, stores the result in both records,
invokes `onMigrationError` (when supplied) exactly once with an error
whose message is `M`, and never invokes `onMigrationsComplete`. -/
theorem bootstrap_migrations_failure
    (opts : CreateAppOptions) (s : AppState) (c : DatabaseContext)
    (props : LifecycleProps) (db : D1Database) (N : Nat) (M : String)
    (hdb : props.db = some db) (hm : opts.migrations ≠ []) :
    (bootstrap opts s c props (.resolves ⟨false, N, some ⟨M⟩⟩)).state.migrationsComplete = false ∧
    (bootstrap opts s c props (.resolves ⟨false, N, some ⟨M⟩⟩)).databaseContext.migrationsComplete = false ∧
    (bootstrap opts s c props (.resolves ⟨false, N, some ⟨M⟩⟩)).state.migrationResult =
      some ⟨false, N, some ⟨M⟩⟩ ∧
    (bootstrap opts s c props (.resolves ⟨false, N, some ⟨M⟩⟩)).databaseContext.migrationResult =
      some ⟨false, N, some ⟨M⟩⟩ ∧
    (opts.hasOnMigrationError = true →
      (bootstrap opts s c props (.resolves ⟨false, N, some ⟨M⟩⟩)).errorCalls = [⟨M⟩]) ∧
    (opts.hasOnMigrationError = false →
      (bootstrap opts s c props (.resolves ⟨false, N, some ⟨M⟩⟩)).errorCalls = []) ∧
    (bootstrap opts s c props (.resolves ⟨false, N, some ⟨M⟩⟩)).completeCalls = [] := by
  have hlen : 0 < opts.migrations.length := List.length_pos.mpr hm
  cases hcb : opts.hasOnMigrationError <;>
    simp [bootstrap, hdb, hlen, hcb]

/-- C2 witness: a concrete reported failure. -/
theorem bootstrap_migrations_failure_witness :
    (bootstrap ⟨"my-vue-app", [⟨"0001_init.sql", "CREATE TABLE items;"⟩], true, true⟩
        initialAppState initialDatabaseContext
        ⟨"my-vue-app", (), (), some ⟨7⟩, none⟩
        (.resolves ⟨false, 0, some ⟨"checksum mismatch"⟩⟩)).errorCalls =
      [⟨"checksum mismatch"⟩] :=
  (bootstrap_migrations_failure _ _ _ _ ⟨7⟩ 0 "checksum mismatch" rfl
    (List.cons_ne_nil _ _)).2.2.2.2.1 rfl

/-- C3: with a database handle and a non-empty migration list, when the
runner raises instead of resolving, `bootstrap` still returns normally (in
this embedding it is a total function, mirroring the `try`/`catch` that
lets nothing escape): `migrationsComplete = false` in both records,
`migrationResult` stays unset when it was unset before the call (as it is
in a freshly created lifecycle), and `onMigrationError`, when supplied, is
invoked exactly once with the raised error, wrapped into a generic
`Error` by `normalizeThrown` when it was not already one. -/
theorem bootstrap_runner_raises
    (opts : CreateAppOptions) (s : AppState) (c : DatabaseContext)
    (props : LifecycleProps) (db : D1Database) (thrown : ThrownValue)
    (hdb : props.db = some db) (hm : opts.migrations ≠ [])
    (hs : s.migrationResult = none) (hc : c.migrationResult = none) :
    (bootstrap opts s c props (.raises thrown)).state.migrationsComplete = false ∧
    (bootstrap opts s c props (.raises thrown)).databaseContext.migrationsComplete = false ∧
    (bootstrap opts s c props (.raises thrown)).state.migrationResult = none ∧
    (bootstrap opts s c props (.raises thrown)).databaseContext.migrationResult = none ∧
    (opts.hasOnMigrationError = true →
      (bootstrap opts s c props (.raises thrown)).errorCalls = [normalizeThrown thrown]) ∧
    (opts.hasOnMigrationError = false →
      (bootstrap opts s c props (.raises thrown)).errorCalls = []) ∧
    (bootstrap opts s c props (.raises thrown)).completeCalls = [] := by
  have hlen : 0 < opts.migrations.length := List.length_pos.mpr hm
  cases hcb : opts.hasOnMigrationError <;>
    simp [bootstrap, hdb, hlen, hcb, hs, hc]

/-- C3 witness: a concrete raise of a non-`Error` value, wrapped. -/
theorem bootstrap_runner_raises_witness :
    (bootstrap ⟨"my-vue-app", [⟨"0001_init.sql", "CREATE TABLE items;"⟩], false, true⟩
        initialAppState initialDatabaseContext
        ⟨"my-vue-app", (), (), some ⟨2⟩, none⟩
        (.raises (.otherVal "boom"))).errorCalls = [⟨"boom"⟩] ∧
    (bootstrap ⟨"my-vue-app", [⟨"0001_init.sql", "CREATE TABLE items;"⟩], false, true⟩
        initialAppState initialDatabaseContext
        ⟨"my-vue-app", (), (), some ⟨2⟩, none⟩
        (.raises (.otherVal "boom"))).state.migrationResult = none :=
  ⟨(bootstrap_runner_raises _ _ _ _ ⟨2⟩ (.otherVal "boom") rfl
      (List.cons_ne_nil _ _) rfl rfl).2.2.2.2.1 rfl,
   (bootstrap_runner_raises _ _ _ _ ⟨2⟩ (.otherVal "boom") rfl
      (List.cons_ne_nil _ _) rfl rfl).2.2.1⟩

/-- C4: when the props carry no database handle, `bootstrap` finishes with
`migrationsComplete = true` and `migrationResult = null` in both records
(starting, as `createApp` does, from records whose `migrationResult` is
unset), whatever the migration list, and the migration runner is never
invoked. -/
theorem bootstrap_no_db
    (opts : CreateAppOptions) (s : AppState) (c : DatabaseContext)
    (props : LifecycleProps) (runner : RunnerOutcome)
    (hdb : props.db = none)
    (hs : s.migrationResult = none) (hc : c.migrationResult = none) :
    (bootstrap opts s c props runner).state.migrationsComplete = true ∧
    (bootstrap opts s c props runner).databaseContext.migrationsComplete = true ∧
    (bootstrap opts s c props runner).state.migrationResult = none ∧
    (bootstrap opts s c props runner).databaseContext.migrationResult = none ∧
    (bootstrap opts s c props runner).runnerCalls = 0 := by
  simp [bootstrap, hdb, hs, hc]

/-- C4 witness: no handle, a non-empty migration list supplied. -/
theorem bootstrap_no_db_witness :
    (bootstrap ⟨"my-vue-app", [⟨"0001_init.sql", "CREATE TABLE items;"⟩], true, true⟩
        initialAppState initialDatabaseContext
        ⟨"my-vue-app", (), (), none, none⟩
        (.resolves ⟨true, 1, none⟩)).state.migrationsComplete = true ∧
    (bootstrap ⟨"my-vue-app", [⟨"0001_init.sql", "CREATE TABLE items;"⟩], true, true⟩
        initialAppState initialDatabaseContext
        ⟨"my-vue-app", (), (), none, none⟩
        (.resolves ⟨true, 1, none⟩)).runnerCalls = 0 :=
  ⟨(bootstrap_no_db _ _ _ _ _ rfl rfl rfl).1,
   (bootstrap_no_db _ _ _ _ _ rfl rfl rfl).2.2.2.2⟩

/-- C10 (implicit edge case): with a database handle and a non-empty
migration list, when the runner resolves with `success = false` and no
error descriptor, neither callback is invoked — even when both are
supplied — while the result is still stored and `migrationsComplete` is
set to `false` in both records. -/
theorem bootstrap_silent_failure
    (opts : CreateAppOptions) (s : AppState) (c : DatabaseContext)
    (props : LifecycleProps) (db : D1Database) (N : Nat)
    (hdb : props.db = some db) (hm : opts.migrations ≠ []) :
    (bootstrap opts s c props (.resolves ⟨false, N, none⟩)).completeCalls = [] ∧
    (bootstrap opts s c props (.resolves ⟨false, N, none⟩)).errorCalls = [] ∧
    (bootstrap opts s c props (.resolves ⟨false, N, none⟩)).state.migrationResult =
      some ⟨false, N, none⟩ ∧
    (bootstrap opts s c props (.resolves ⟨false, N, none⟩)).databaseContext.migrationResult =
      some ⟨false, N, none⟩ ∧
    (bootstrap opts s c props (.resolves ⟨false, N, none⟩)).state.migrationsComplete = false ∧
    (bootstrap opts s c props (.resolves ⟨false, N, none⟩)).databaseContext.migrationsComplete = false := by
  have hlen : 0 < opts.migrations.length := List.length_pos.mpr hm
  simp [bootstrap, hdb, hlen]

/-- C10 witness: both callbacks supplied, yet neither is invoked. -/
theorem bootstrap_silent_failure_witness :
    (bootstrap ⟨"my-vue-app", [⟨"0001_init.sql", "CREATE TABLE items;"⟩], true, true⟩
        initialAppState initialDatabaseContext
        ⟨"my-vue-app", (), (), some ⟨3⟩, none⟩
        (.resolves ⟨false, 0, none⟩)).completeCalls = [] ∧
    (bootstrap ⟨"my-vue-app", [⟨"0001_init.sql", "CREATE TABLE items;"⟩], true, true⟩
        initialAppState initialDatabaseContext
        ⟨"my-vue-app", (), (), some ⟨3⟩, none⟩
        (.resolves ⟨false, 0, none⟩)).errorCalls = [] :=
  ⟨(bootstrap_silent_failure _ _ _ _ ⟨3⟩ 0 rfl (List.cons_ne_nil _ _)).1,
   (bootstrap_silent_failure _ _ _ _ ⟨3⟩ 0 rfl (List.cons_ne_nil _ _)).2.1⟩

/-- C9: `bootstrap` is not idempotent — with a database handle and a
non-empty migration list, two consecutive invocations (the second started
from the state the first produced) each invoke the migration runner, so
it runs twice in total; no guard prevents re-execution. -/
theorem bootstrap_not_idempotent
    (opts : CreateAppOptions) (s : AppState) (c : DatabaseContext)
    (props : LifecycleProps) (db : D1Database) (r₁ r₂ : RunnerOutcome)
    (hdb : props.db = some db) (hm : opts.migrations ≠ []) :
    (bootstrap opts s c props r₁).runnerCalls = 1 ∧
    (bootstrap opts (bootstrap opts s c props r₁).state
      (bootstrap opts s c props r₁).databaseContext props r₂).runnerCalls = 1 ∧
    (bootstrap opts s c props r₁).runnerCalls +
      (bootstrap opts (bootstrap opts s c props r₁).state
        (bootstrap opts s c props r₁).databaseContext props r₂).runnerCalls = 2 := by
  have h₁ := bootstrap_runnerCalls_one opts s c props db r₁ hdb hm
  have h₂ := bootstrap_runnerCalls_one opts (bootstrap opts s c props r₁).state
    (bootstrap opts s c props r₁).databaseContext props db r₂ hdb hm
  exact ⟨h₁, h₂, by rw [h₁, h₂]⟩

/-- C9 witness: two concrete invocations, two runner calls. -/
theorem bootstrap_not_idempotent_witness :
    (bootstrap ⟨"my-vue-app", [⟨"0001_init.sql", "CREATE TABLE items;"⟩], true, true⟩
        initialAppState initialDatabaseContext
        ⟨"my-vue-app", (), (), some ⟨4⟩, none⟩
        (.resolves ⟨true, 1, none⟩)).runnerCalls +
      (bootstrap ⟨"my-vue-app", [⟨"0001_init.sql", "CREATE TABLE items;"⟩], true, true⟩
        (bootstrap ⟨"my-vue-app", [⟨"0001_init.sql", "CREATE TABLE items;"⟩], true, true⟩
          initialAppState initialDatabaseContext
          ⟨"my-vue-app", (), (), some ⟨4⟩, none⟩
          (.resolves ⟨true, 1, none⟩)).state
        (bootstrap ⟨"my-vue-app", [⟨"0001_init.sql", "CREATE TABLE items;"⟩], true, true⟩
          initialAppState initialDatabaseContext
          ⟨"my-vue-app", (), (), some ⟨4⟩, none⟩
          (.resolves ⟨true, 1, none⟩)).databaseContext
        ⟨"my-vue-app", (), (), some ⟨4⟩, none⟩
        (.resolves ⟨true, 1, none⟩)).runnerCalls = 2 :=
  (bootstrap_not_idempotent _ _ _ _ ⟨4⟩ _ _ rfl (List.cons_ne_nil _ _)).2.2

/-- C5: `combineLifecycles A B` yields a lifecycle whose bootstrap runs
all of A's bootstrap phase(s) to completion before any of B's, passing B
the world A produced (so B observes A's mutations); whose mount and
unmount run only B's corresponding phase(s) — their outcome is
independent of A, so A's mount/unmount are never invoked; and running an
array phase processes its functions strictly in order (the run of a
concatenation is the run of the first part followed by the run of the
second on the resulting world). -/
theorem combineLifecycles_spec {T W : Type} (e v : AppLifecycle T W)
    (props : T) (w : W) :
    runLifecycleFn (combineLifecycles e v).bootstrap props w =
      runLifecycleFn v.bootstrap props (runLifecycleFn e.bootstrap props w) ∧
    runLifecycleFn (combineLifecycles e v).mount props w =
      runLifecycleFn v.mount props w ∧
    runLifecycleFn (combineLifecycles e v).unmount props w =
      runLifecycleFn v.unmount props w ∧
    (∀ e₂ : AppLifecycle T W,
      runLifecycleFn (combineLifecycles e₂ v).mount props w =
        runLifecycleFn (combineLifecycles e v).mount props w ∧
      runLifecycleFn (combineLifecycles e₂ v).unmount props w =
        runLifecycleFn (combineLifecycles e v).unmount props w) ∧
    (∀ fs gs : List (T → W → W),
      runLifecycleFn (.arr (fs ++ gs)) props w =
        runLifecycleFn (.arr gs) props (runLifecycleFn (.arr fs) props w)) := by
  refine ⟨rfl, rfl, rfl, fun e₂ => ⟨rfl, rfl⟩, fun fs gs => ?_⟩
  simp [runLifecycleFn, List.foldl_append]

/-- C6: provided `state` and `databaseContext` agree on their three
shared fields before the call (as the fresh records of `createApp` do),
they agree at every observable point of a bootstrap execution: at the
single suspension awaiting the migration runner, and after `bootstrap`
returns, whatever path it took. -/
theorem bootstrap_preserves_agreement
    (opts : CreateAppOptions) (s : AppState) (c : DatabaseContext)
    (props : LifecycleProps) (runner : RunnerOutcome) (h : agrees s c) :
    (∀ db : D1Database, agrees (stateAtAwait s db) (databaseContextAtAwait c db)) ∧
    agrees (bootstrap opts s c props runner).state
      (bootstrap opts s c props runner).databaseContext := by
  obtain ⟨h₁, h₂, h₃⟩ := h
  refine ⟨fun db => ⟨rfl, h₂, h₃⟩, ?_⟩
  cases hp : props.db with
  | none => simp [bootstrap, hp, agrees, h₁, h₂, h₃]
  | some db =>
      rcases Nat.eq_zero_or_pos opts.migrations.length with hl | hl
      · simp [bootstrap, hp, hl, agrees, h₁, h₂, h₃]
      · cases runner with
        | resolves result =>
            rcases result with ⟨success, executed, error⟩
            cases success <;> cases error <;>
              simp [bootstrap, hp, hl, agrees, h₁, h₂, h₃]
        | raises thrown => simp [bootstrap, hp, hl, agrees, h₁, h₂, h₃]

/-- C6 witness: agreement after a concrete bootstrap run from the fresh
records. -/
theorem bootstrap_preserves_agreement_witness :
    agrees
      (bootstrap ⟨"my-vue-app", [⟨"0001_init.sql", "CREATE TABLE items;"⟩], true, true⟩
        initialAppState initialDatabaseContext
        ⟨"my-vue-app", (), (), some ⟨5⟩, none⟩
        (.resolves ⟨true, 1, none⟩)).state
      (bootstrap ⟨"my-vue-app", [⟨"0001_init.sql", "CREATE TABLE items;"⟩], true, true⟩
        initialAppState initialDatabaseContext
        ⟨"my-vue-app", (), (), some ⟨5⟩, none⟩
        (.resolves ⟨true, 1, none⟩)).databaseContext :=
  (bootstrap_preserves_agreement _ _ _ _ _ ⟨rfl, rfl, rfl⟩).2

/-- C7: `useAuthHeaders` (the `getAuthHeaders` accessor) returns the
empty mapping when the shell global is absent or its `getAuthHeaders`
capability is absent, and returns the capability's output verbatim when
both are present.  Being a total function of the global slot, it cannot
raise. -/
theorem useAuthHeaders_spec :
    useAuthHeaders none = [] ∧
    (∀ g : EldrinGlobal, g.getAuthHeaders = none → useAuthHeaders (some g) = []) ∧
    (∀ (g : EldrinGlobal) (headersFn : Unit → List (String × String)),
      g.getAuthHeaders = some headersFn → useAuthHeaders (some g) = headersFn ()) := by
  refine ⟨rfl, fun g hg => ?_, fun g headersFn hg => ?_⟩ <;>
    simp [useAuthHeaders, useEldrinGlobal, getEldrinGlobal, hg]

/-- C7 witness: a shell global whose capability returns one header. -/
theorem useAuthHeaders_spec_witness :
    useAuthHeaders
      (some { getAuthHeaders := some fun _ => [("Authorization", "Bearer token")],
              user := none }) = [("Authorization", "Bearer token")] :=
  useAuthHeaders_spec.2.2 _ _ rfl

/-- C8: with no reachable Context Store, `useDatabase` returns `null`
together with exactly one diagnostic warning, and `useMigrationsComplete`
returns `false` with no warning at all; with a store, they return its
current `db` and `migrationsComplete` fields warning-free.  Both accessors
consume the store by value and return no updated store, so neither can
mutate it. -/
theorem accessor_fallbacks :
    useDatabase none = (none, ["useDatabase() called outside of Eldrin app context"]) ∧
    (∀ c : DatabaseContext, useDatabase (some c) = (c.db, [])) ∧
    useMigrationsComplete none = (false, []) ∧
    (∀ c : DatabaseContext, useMigrationsComplete (some c) = (c.migrationsComplete, [])) :=
  ⟨rfl, fun _ => rfl, rfl, fun _ => rfl⟩
